import Mathlib

/-!
Verification of the query-classification and pipeline-animation state machine
of the Incident Intelligence dashboard (component AIFlowPanel).

The embedding follows the TypeScript source closely:
  - the regular expressions of GREETING_PATTERNS, CRUD_PATTERNS,
    KEYWORD_PATTERNS and REASONING_PATTERNS are transliterated into a small
    regular-expression datatype with Brzozowski-derivative matching;
  - the JavaScript semantics of RegExp.test are modelled per anchor shape:
    patterns of the form ^X$ are whole-string matches, ^X are prefix matches,
    and \bX\b are word-bounded substring searches;
  - the /i flag is modelled by lowercasing the input (ASCII case folding,
    matching the ASCII-only pattern alphabets) and writing patterns lowercase;
  - String.prototype.trim is modelled on lists of characters;
  - the React node/edge state and the animateFlow / handleSubmit procedures
    are modelled as pure state transformers, with the asynchronous
    environment (network result, Math.random, elapsed wall-clock times)
    passed in explicitly.
-/

namespace IncidentFlow

/-- ASCII whitespace recognised by the embedding of \s and of trim. -/
def isSpaceChar (c : Char) : Bool :=
  c == ' ' || c == '\t' || c == '\n' || c == '\r' ||
    c == Char.ofNat 11 || c == Char.ofNat 12

/-- ASCII case folding, modelling the /i flag (all pattern alphabets are
ASCII) and String.prototype.toLowerCase on the relevant characters. -/
def lowerChar (c : Char) : Char :=
  if c == 'A' then 'a' else if c == 'B' then 'b' else if c == 'C' then 'c'
  else if c == 'D' then 'd' else if c == 'E' then 'e' else if c == 'F' then 'f'
  else if c == 'G' then 'g' else if c == 'H' then 'h' else if c == 'I' then 'i'
  else if c == 'J' then 'j' else if c == 'K' then 'k' else if c == 'L' then 'l'
  else if c == 'M' then 'm' else if c == 'N' then 'n' else if c == 'O' then 'o'
  else if c == 'P' then 'p' else if c == 'Q' then 'q' else if c == 'R' then 'r'
  else if c == 'S' then 's' else if c == 'T' then 't' else if c == 'U' then 'u'
  else if c == 'V' then 'v' else if c == 'W' then 'w' else if c == 'X' then 'x'
  else if c == 'Y' then 'y' else if c == 'Z' then 'z' else c

/-- Word characters for the \b assertion of JavaScript regexes. -/
def isWordChar (c : Char) : Bool :=
  ('a' ≤ c && c ≤ 'z') || ('A' ≤ c && c ≤ 'Z') || ('0' ≤ c && c ≤ '9') || c == '_'

/-- The character class [\s!.,?] that ends every greeting pattern. -/
def isGreetTail (c : Char) : Bool :=
  isSpaceChar c || c == '!' || c == '.' || c == ',' || c == '?'

/-- Regular expressions over characters, with predicate character classes
(needed for \s and for the dot of JavaScript regexes). -/
inductive RE : Type
  | fail : RE
  | eps : RE
  | cls : (Char → Bool) → RE
  | alt : RE → RE → RE
  | cat : RE → RE → RE
  | star : RE → RE

namespace RE

/-- Does the expression accept the empty string? -/
def nullable : RE → Bool
  | fail => false
  | eps => true
  | cls _ => false
  | alt a b => nullable a || nullable b
  | cat a b => nullable a && nullable b
  | star _ => true

/-- Brzozowski derivative with respect to one character. -/
def deriv : RE → Char → RE
  | fail, _ => fail
  | eps, _ => fail
  | cls p, c => if p c then eps else fail
  | alt a b, c => alt (deriv a c) (deriv b c)
  | cat a b, c =>
      if nullable a then alt (cat (deriv a c) b) (deriv b c)
      else cat (deriv a c) b
  | star a, c => cat (deriv a c) (star a)

/-- Whole-string matching by iterated derivatives. -/
def rmatch : RE → List Char → Bool
  | r, [] => nullable r
  | r, c :: s => rmatch (deriv r c) s

/-- Prefix matching: does some prefix of the string match?  This is the
JavaScript test semantics for a pattern anchored with ^ but not with $. -/
def pmatch : RE → List Char → Bool
  | r, [] => nullable r
  | r, c :: s => nullable r || pmatch (deriv r c) s

/-- Syntactic emptiness check, sound for the empty language. -/
def void : RE → Bool
  | fail => true
  | eps => false
  | cls _ => false
  | alt a b => void a && void b
  | cat a b => void a || void b
  | star _ => false

end RE

open RE

/-- Single-character literal. -/
def chr (a : Char) : RE := RE.cls (fun c => c == a)

/-- Literal word: the concatenation of its characters. -/
def lit (s : String) : RE := s.toList.foldr (fun a r => RE.cat (chr a) r) RE.eps

/-- Alternation of a list of expressions (a regex group x|y|z). -/
def alts (l : List RE) : RE := l.foldr RE.alt RE.fail

/-- One-or-more repetition, the + postfix operator. -/
def rplus (r : RE) : RE := RE.cat r (RE.star r)

/-- Zero-or-one repetition, the ? postfix operator. -/
def ropt (r : RE) : RE := RE.alt r RE.eps

/-- The class \s of JavaScript regexes. -/
def wsCls : RE := RE.cls isSpaceChar

/-- \s* -/
def wsStar : RE := RE.star wsCls

/-- \s+ -/
def wsPlus : RE := rplus wsCls

/-- The dot of JavaScript regexes without the s flag: any character other
than a line terminator (\n, \r, U+2028, U+2029). -/
def dotCls : RE :=
  RE.cls (fun c =>
    !(c == '\n' || c == '\r' || c == Char.ofNat 0x2028 || c == Char.ofNat 0x2029))

/-- The trailing class [\s!.,?]* shared by all greeting patterns. -/
def greetTail : RE := RE.star (RE.cls isGreetTail)

/-- Is position i of s a \b word boundary?  Position i lies between
characters i-1 and i; the string edges count as non-word. -/
def atBoundary (s : List Char) (i : Nat) : Bool :=
  (match s.get? (i - 1) with
    | some c => decide (i ≠ 0) && isWordChar c
    | none => false) !=
  (match s.get? i with
    | some c => isWordChar c
    | none => false)

/-- The substring of s from position i (inclusive) to j (exclusive). -/
def extract (s : List Char) (i j : Nat) : List Char := (s.drop i).take (j - i)

/-- JavaScript test semantics for a pattern of the form \bX\b: some
word-bounded substring of s matches X. -/
def wbMatch (inner : RE) (s : List Char) : Bool :=
  (List.range (s.length + 1)).any fun i =>
    (List.range (s.length + 1)).any fun j =>
      decide (i ≤ j) && atBoundary s i && atBoundary s j &&
        RE.rmatch inner (extract s i j)

/-! ### The four pattern families of the classifier

Each definition transliterates one regex from the source file; the source
text is given in the comment above it, an apostrophe written as \x27. -/

/-- GREETING_PATTERNS, all of the form ^X[\s!.,?]*$ (whole-string match):
  1 ^(hi|hello|hey|hii+|helo+)[\s!.,?]*$
  2 ^(good\s*)?(morning|afternoon|evening|night)[\s!.,?]*$
  3 ^(howdy|hiya|yo|sup)[\s!.,?]*$
  4 ^how\s*(are|r)\s*(you|u|ya)[\s!.,?]*$
  5 ^what\x27?s\s*up[\s!.,?]*$
  6 ^(who|what)\s*(are|r)\s*(you|u)[\s!.,?]*$
  7 ^(help|help me)[\s!.,?]*$
  8 ^(thanks?|thank\s*you|ty)[\s!.,?]*$
  9 ^(bye|goodbye|see\s*you?|later)[\s!.,?]*$ -/
def GREETING_PATTERNS : List RE :=
  [ RE.cat (alts [lit "hi", lit "hello", lit "hey",
      RE.cat (lit "hi") (rplus (chr 'i')),
      RE.cat (lit "hel") (rplus (chr 'o'))]) greetTail,
    RE.cat (RE.cat (ropt (RE.cat (lit "good") wsStar))
      (alts [lit "morning", lit "afternoon", lit "evening", lit "night"]))
      greetTail,
    RE.cat (alts [lit "howdy", lit "hiya", lit "yo", lit "sup"]) greetTail,
    RE.cat (RE.cat (RE.cat (RE.cat (lit "how") wsStar)
      (RE.cat (alts [lit "are", lit "r"]) wsStar))
      (alts [lit "you", lit "u", lit "ya"])) greetTail,
    RE.cat (RE.cat (RE.cat (RE.cat (lit "what") (ropt (chr (Char.ofNat 39))))
      (RE.cat (lit "s") wsStar)) (lit "up")) greetTail,
    RE.cat (RE.cat (RE.cat (RE.cat (alts [lit "who", lit "what"]) wsStar)
      (RE.cat (alts [lit "are", lit "r"]) wsStar))
      (alts [lit "you", lit "u"])) greetTail,
    RE.cat (alts [lit "help", lit "help me"]) greetTail,
    RE.cat (alts [RE.cat (lit "thank") (ropt (chr 's')),
      RE.cat (RE.cat (lit "thank") wsStar) (lit "you"), lit "ty"]) greetTail,
    RE.cat (alts [lit "bye", lit "goodbye",
      RE.cat (RE.cat (lit "see") wsStar) (RE.cat (lit "yo") (ropt (chr 'u'))),
      lit "later"]) greetTail ]

/-- Optional plural s of the nouns (incidents? etc.). -/
def sOpt : RE := ropt (chr 's')

/-- KEYWORD_PATTERNS, all anchored with ^ only (prefix match):
  1 ^(show|list|find|get|display|fetch)\s+(all\s+)?(incidents?|issues?|problems?|records?)
  2 ^(critical|high|medium|low)\s+(incidents?|issues?)
  3 ^(how\s+many|count)\s+(incidents?|issues?)
  4 ^(open|closed|resolved|active)\s+(incidents?|issues?)
  5 ^(incidents?|issues?)\s+(from|in|at)\s+
  6 ^(recent|latest|new)\s+(incidents?|issues?) -/
def KEYWORD_PATTERNS : List RE :=
  [ RE.cat (RE.cat (RE.cat (alts [lit "show", lit "list", lit "find",
      lit "get", lit "display", lit "fetch"]) wsPlus)
      (ropt (RE.cat (lit "all") wsPlus)))
      (alts [RE.cat (lit "incident") sOpt, RE.cat (lit "issue") sOpt,
        RE.cat (lit "problem") sOpt, RE.cat (lit "record") sOpt]),
    RE.cat (RE.cat (alts [lit "critical", lit "high", lit "medium", lit "low"])
      wsPlus) (alts [RE.cat (lit "incident") sOpt, RE.cat (lit "issue") sOpt]),
    RE.cat (RE.cat (alts [RE.cat (RE.cat (lit "how") wsPlus) (lit "many"),
      lit "count"]) wsPlus)
      (alts [RE.cat (lit "incident") sOpt, RE.cat (lit "issue") sOpt]),
    RE.cat (RE.cat (alts [lit "open", lit "closed", lit "resolved",
      lit "active"]) wsPlus)
      (alts [RE.cat (lit "incident") sOpt, RE.cat (lit "issue") sOpt]),
    RE.cat (RE.cat (RE.cat (alts [RE.cat (lit "incident") sOpt,
      RE.cat (lit "issue") sOpt]) wsPlus)
      (alts [lit "from", lit "in", lit "at"])) wsPlus,
    RE.cat (RE.cat (alts [lit "recent", lit "latest", lit "new"]) wsPlus)
      (alts [RE.cat (lit "incident") sOpt, RE.cat (lit "issue") sOpt]) ]

/-- CRUD_PATTERNS, all anchored with ^ only (prefix match):
  1 ^(create|add|new|insert)\s+(an?\s+)?(incident|issue|record)
  2 ^(update|edit|modify|change)\s+(the\s+)?(incident|issue)
  3 ^(delete|remove|close)\s+(the\s+)?(incident|issue)
  4 ^(mark|set)\s+(incident|issue).*(resolved|closed|open) -/
def CRUD_PATTERNS : List RE :=
  [ RE.cat (RE.cat (RE.cat (alts [lit "create", lit "add", lit "new",
      lit "insert"]) wsPlus)
      (ropt (RE.cat (RE.cat (lit "a") (ropt (chr 'n'))) wsPlus)))
      (alts [lit "incident", lit "issue", lit "record"]),
    RE.cat (RE.cat (RE.cat (alts [lit "update", lit "edit", lit "modify",
      lit "change"]) wsPlus) (ropt (RE.cat (lit "the") wsPlus)))
      (alts [lit "incident", lit "issue"]),
    RE.cat (RE.cat (RE.cat (alts [lit "delete", lit "remove", lit "close"])
      wsPlus) (ropt (RE.cat (lit "the") wsPlus)))
      (alts [lit "incident", lit "issue"]),
    RE.cat (RE.cat (RE.cat (RE.cat (alts [lit "mark", lit "set"]) wsPlus)
      (alts [lit "incident", lit "issue"])) (RE.star dotCls))
      (alts [lit "resolved", lit "closed", lit "open"]) ]

/-- REASONING_PATTERNS, all of the form \bX\b (word-bounded substring
search); only the inner group is kept here, wbMatch supplies the \b:
  1 \b(why|how|explain|analyze|analysis|reason|cause|root\s*cause)\b
  2 \b(pattern|trend|insight|summary|summarize|overview)\b
  3 \b(recommend|suggest|should|could|prevent|avoid)\b
  4 \b(compare|correlation|related|similar)\b
  5 \b(what\s+happened|tell\s+me\s+about|describe)\b -/
def REASONING_PATTERNS : List RE :=
  [ alts [lit "why", lit "how", lit "explain", lit "analyze", lit "analysis",
      lit "reason", lit "cause", RE.cat (RE.cat (lit "root") wsStar) (lit "cause")],
    alts [lit "pattern", lit "trend", lit "insight", lit "summary",
      lit "summarize", lit "overview"],
    alts [lit "recommend", lit "suggest", lit "should", lit "could",
      lit "prevent", lit "avoid"],
    alts [lit "compare", lit "correlation", lit "related", lit "similar"],
    alts [RE.cat (RE.cat (lit "what") wsPlus) (lit "happened"),
      RE.cat (RE.cat (RE.cat (RE.cat (lit "tell") wsPlus) (lit "me")) wsPlus)
        (lit "about"), lit "describe"] ]

/-! ### Trimming and case folding -/

/-- Leading-whitespace removal. -/
def trimLeft (s : List Char) : List Char := s.dropWhile isSpaceChar

/-- Trailing-whitespace removal. -/
def trimRight (s : List Char) : List Char :=
  (s.reverse.dropWhile isSpaceChar).reverse

/-- message.trim() of the source. -/
def trimStr (s : List Char) : List Char := trimRight (trimLeft s)

/-- Case folding of a whole string. -/
def lowerStr (s : List Char) : List Char := s.map lowerChar

/-! ### The classifier -/

/-- The four flow types of the source. -/
inductive FlowType : Type
  | greeting : FlowType
  | keyword : FlowType
  | reasoning : FlowType
  | crud : FlowType
deriving DecidableEq, Repr

/-- Does any greeting pattern match the whole (trimmed, folded) message? -/
def greetingHit (m : List Char) : Bool :=
  GREETING_PATTERNS.any fun r => RE.rmatch r m

/-- Does any crud pattern match a prefix of the message? -/
def crudHit (m : List Char) : Bool :=
  CRUD_PATTERNS.any fun r => RE.pmatch r m

/-- Does any keyword pattern match a prefix of the message? -/
def keywordHit (m : List Char) : Bool :=
  KEYWORD_PATTERNS.any fun r => RE.pmatch r m

/-- Does any reasoning pattern match a word-bounded substring? -/
def reasoningHit (m : List Char) : Bool :=
  REASONING_PATTERNS.any fun r => wbMatch r m

/-- classifyQuery of the source: trim, then try the families in the order
greeting, crud, keyword, reasoning, defaulting to reasoning. -/
def classifyQuery (message : List Char) : FlowType :=
  let msg := lowerStr (trimStr message)
  if greetingHit msg then .greeting
  else if crudHit msg then .crud
  else if keywordHit msg then .keyword
  else if reasoningHit msg then .reasoning
  else .reasoning

/-! ### The pipeline graph and its animation

Visual-only fields of the source (positions, labels, marker shape, label
transforms) are omitted; the fields below are exactly the ones read or
written by the animation logic and by the specification. -/

/-- Node status of the source. -/
inductive NodeStatus : Type
  | idle : NodeStatus
  | active : NodeStatus
  | completed : NodeStatus
  | skipped : NodeStatus
deriving DecidableEq, Repr

/-- One node of the diagram: its id and the status stored in data.status. -/
structure FlowNode : Type where
  id : String
  status : NodeStatus
deriving DecidableEq, Repr

/-- The dimmed opacity 0.4 used by activateEdge, written as a normalized
rational so that equality of edge records is kernel-computable; the lemma
dimOpacity_eq identifies it with 2/5 = 0.4. -/
def dimOpacity : ℚ := ⟨2, 5, by norm_num, by norm_num⟩

/-- One edge of the diagram with the style fields the animation writes. -/
structure FlowEdge : Type where
  id : String
  source : String
  target : String
  animated : Bool
  stroke : String
  strokeWidth : Nat
  dash : Option String
  opacity : Option ℚ
  markerColor : String
  labelOpacity : Option ℚ
deriving DecidableEq, Repr

/-- createNodes of the source: the five nodes, all idle. -/
def createNodes : List FlowNode :=
  [ ⟨"ui", .idle⟩, ⟨"fastapi", .idle⟩, ⟨"pathway", .idle⟩,
    ⟨"llm", .idle⟩, ⟨"supabase", .idle⟩ ]

/-- createEdges of the source: the five edges with their initial styles. -/
def createEdges : List FlowEdge :=
  [ ⟨"ui-fastapi", "ui", "fastapi", false, "#4b5563", 2, none, none,
      "#4b5563", none⟩,
    ⟨"fastapi-pathway", "fastapi", "pathway", false, "#4b5563", 2, none, none,
      "#4b5563", none⟩,
    ⟨"pathway-llm", "pathway", "llm", false, "#4b5563", 2, none, none,
      "#4b5563", none⟩,
    ⟨"fastapi-supabase", "fastapi", "supabase", false, "#3b82f6", 2, none,
      none, "#3b82f6", none⟩,
    ⟨"pathway-supabase", "pathway", "supabase", false, "#a78bfa", 2,
      some "5 5", none, "#a78bfa", none⟩ ]

/-- One entry of FLOW_PATHS. -/
structure FlowPathSpec : Type where
  activeNodes : List String
  activeEdges : List String
  animatedEdges : List String
deriving DecidableEq, Repr

/-- FLOW_PATHS of the source. -/
def FLOW_PATHS : FlowType → FlowPathSpec
  | .greeting => ⟨["ui"], [], []⟩
  | .keyword => ⟨["ui", "fastapi", "supabase"],
      ["ui-fastapi", "fastapi-supabase"], ["ui-fastapi", "fastapi-supabase"]⟩
  | .reasoning => ⟨["ui", "fastapi", "pathway", "llm", "supabase"],
      ["ui-fastapi", "fastapi-pathway", "pathway-llm", "pathway-supabase"],
      ["ui-fastapi", "fastapi-pathway", "pathway-llm", "pathway-supabase"]⟩
  | .crud => ⟨["ui", "fastapi", "supabase"],
      ["ui-fastapi", "fastapi-supabase"], ["ui-fastapi", "fastapi-supabase"]⟩

/-- FLOW_CAPTIONS of the source. -/
def FLOW_CAPTIONS : FlowType → String
  | .greeting => "Greeting detected — responding directly"
  | .keyword => "Keyword search — querying Supabase directly"
  | .reasoning => "AI reasoning — routed through Pathway RAG"
  | .crud => "Write operation — updating source of truth"

/-- GREETING_RESPONSES of the source. -/
def GREETING_RESPONSES : List String :=
  [ "Hi! I can help you analyze incidents, search issues, or explain system behavior.",
    "Hello! I\x27m your Incident Intelligence assistant. Ask me anything!",
    "Hey there! Ready to help you with incident analysis." ]

/-- activateNode of the source: the named node becomes active; every node
not in the active-node set becomes skipped; the rest are unchanged. -/
def activateNode (nodeId : String) (allActiveNodes : List String)
    (nds : List FlowNode) : List FlowNode :=
  nds.map fun node =>
    if node.id == nodeId then { node with status := .active }
    else if !(allActiveNodes.contains node.id) then
      { node with status := .skipped }
    else node

/-- completeNode of the source. -/
def completeNode (nodeId : String) (nds : List FlowNode) : List FlowNode :=
  nds.map fun node =>
    if node.id == nodeId then { node with status := .completed } else node

/-- activateEdge of the source: recolors every edge as a function of
(activated, current, category, special edge roles). -/
def activateEdge (edgeId : String) (type : FlowType)
    (allActiveEdges : List String) (eds : List FlowEdge) : List FlowEdge :=
  eds.map fun edge =>
    let isActive := allActiveEdges.contains edge.id
    let isCurrentEdge := edge.id == edgeId
    let isDotted := edge.id == "pathway-supabase"
    let isCrud := edge.id == "fastapi-supabase"
    let strokeColor :=
      if isActive || isCurrentEdge then
        if type = .crud ∧ isCrud then "#f59e0b"
        else if type = .keyword ∧ isCrud then "#3b82f6"
        else "#22c55e"
      else "rgba(75, 85, 99, 0.3)"
    { edge with
      animated := isCurrentEdge
      stroke := strokeColor
      strokeWidth := if isActive || isCurrentEdge then 3 else 2
      dash := if isDotted then some "5 5" else none
      opacity := some (if isActive || isCurrentEdge then 1 else dimOpacity)
      markerColor := strokeColor
      labelOpacity := some (if isActive || isCurrentEdge then 1 else dimOpacity) }

/-- One step of the animation sequences of animateFlow. -/
structure AnimStep : Type where
  node : String
  edge : Option String
deriving DecidableEq, Repr

/-- The animation sequences of animateFlow. -/
def sequences : FlowType → List AnimStep
  | .greeting => [⟨"ui", none⟩]
  | .keyword =>
      [⟨"ui", none⟩, ⟨"fastapi", some "ui-fastapi"⟩,
        ⟨"supabase", some "fastapi-supabase"⟩]
  | .reasoning =>
      [⟨"ui", none⟩, ⟨"fastapi", some "ui-fastapi"⟩,
        ⟨"pathway", some "fastapi-pathway"⟩,
        ⟨"supabase", some "pathway-supabase"⟩, ⟨"llm", some "pathway-llm"⟩]
  | .crud =>
      [⟨"ui", none⟩, ⟨"fastapi", some "ui-fastapi"⟩,
        ⟨"supabase", some "fastapi-supabase"⟩]

/-- Shared node/edge state mutated by the animation. -/
structure AnimState : Type where
  nodes : List FlowNode
  edges : List FlowEdge
deriving DecidableEq, Repr

/-- The loop body of animateFlow: activate the node, push the edge (if
present) onto the activatedEdges accumulator and recolor, then (after the
400ms suspension) complete the node. -/
def animGo (type : FlowType) :
    List AnimStep → List String → AnimState → AnimState × List String
  | [], acc, st => (st, acc)
  | step :: rest, acc, st =>
    let ns := activateNode step.node (FLOW_PATHS type).activeNodes st.nodes
    let next : List FlowEdge × List String :=
      match step.edge with
      | some e => (activateEdge e type (acc ++ [e]) st.edges, acc ++ [e])
      | none => (st.edges, acc)
    animGo type rest next.2 ⟨completeNode step.node ns, next.1⟩

/-- animateFlow of the source, run to completion without interruption. -/
def animateFlow (type : FlowType) (st : AnimState) : AnimState :=
  (animGo type (sequences type) [] st).1

/-- The state and activated-edges accumulator after the first k steps of an
uninterrupted animateFlow run started from the initial graph. -/
def animPrefix (type : FlowType) (k : Nat) : AnimState × List String :=
  animGo type ((sequences type).take k) [] ⟨createNodes, createEdges⟩

/-! ### The orchestrator (handleSubmit) -/

/-- The component state read and written by handleSubmit. -/
structure UIState : Type where
  question : String
  response : String
  isLoading : Bool
  flowType : Option FlowType
  caption : String
  currentStep : Nat
  latency : Option Nat
  nodes : List FlowNode
  edges : List FlowEdge
deriving DecidableEq, Repr

/-- The initial component state. -/
def initUI : UIState :=
  ⟨"", "", false, none, "", 0, none, createNodes, createEdges⟩

/-- resetFlow of the source.  It is defined in the component but is never
invoked by handleSubmit (nor anywhere else): dead code. -/
def resetFlow (st : UIState) : UIState :=
  { st with
    nodes := createNodes
    edges := createEdges
    flowType := none
    caption := "" }

/-- The asynchronous environment of one submission: the backend result (or
a rejection), the value of Math.random, and the wall-clock time elapsed at
the two points where Date.now() − start is taken.  The greeting branch
awaits a 600ms timer before reading the clock, so greetElapsed ≥ 600 holds
for every real execution. -/
structure SubmitEnv : Type where
  net : Except Unit String
  rand : ℚ
  greetElapsed : Nat
  fetchElapsed : Nat

/-- The observable outcome of handleSubmit: the final component state, the
node/edge state at the moment animateFlow was started (no reset has
happened before it), and whether apiClient.sendChatMessage was invoked. -/
structure SubmitResult : Type where
  state : UIState
  preAnimNodes : List FlowNode
  preAnimEdges : List FlowEdge
  networkCalled : Bool

/-- The fixed failure string of the catch branch. -/
def failureResponse : String :=
  "Error: Failed to get response. Make sure the backend is running."

/-- handleSubmit of the source, with the try/catch/finally modelled as the
corresponding branches (every branch executes the finally update
isLoading := false).  The animation, started concurrently, is taken to run
to completion uninterrupted. -/
def handleSubmit (st : UIState) (env : SubmitEnv) : SubmitResult :=
  if trimStr st.question.toList = [] ∨ st.isLoading then ⟨st, st.nodes, st.edges, false⟩
  else
    let st1 : UIState :=
      { st with
        isLoading := true
        response := ""
        currentStep := 0
        latency := none }
    let queryType := classifyQuery st.question.toList
    let st2 : UIState :=
      { st1 with
        flowType := some queryType
        caption := FLOW_CAPTIONS queryType
        currentStep := 1 }
    -- animateFlow(queryType) is invoked here, on the un-reset graph state:
    let anim := animateFlow queryType ⟨st2.nodes, st2.edges⟩
    let st3 : UIState := { st2 with nodes := anim.nodes, edges := anim.edges }
    if queryType = .greeting then
      let idx := (⌊env.rand * (GREETING_RESPONSES.length : ℚ)⌋).toNat
      ⟨{ st3 with
          response := GREETING_RESPONSES.getD idx ""
          latency := some env.greetElapsed
          isLoading := false },
        st2.nodes, st2.edges, false⟩
    else
      let st4 : UIState := { st3 with currentStep := 2 }
      match env.net with
      | .ok msg =>
        let st5 : UIState :=
          if queryType = .reasoning then { st4 with currentStep := 3 } else st4
        ⟨{ st5 with
            response := msg
            latency := some env.fetchElapsed
            isLoading := false }, st2.nodes, st2.edges, true⟩
      | .error _ =>
        ⟨{ st4 with response := failureResponse, isLoading := false },
          st2.nodes, st2.edges, true⟩

/-- The disabled condition of the submit control (source line 573:
disabled when loading or when the trimmed question is empty). -/
def submitDisabled (st : UIState) : Bool :=
  st.isLoading || (trimStr st.question.toList).isEmpty

/-! ### Correctness lemmas for the regex matcher -/

namespace RE

theorem rmatch_nil (r : RE) : rmatch r [] = nullable r := rfl

theorem rmatch_cons (r : RE) (c : Char) (s : List Char) :
    rmatch r (c :: s) = rmatch (deriv r c) s := rfl

theorem fail_rmatch (s : List Char) : rmatch fail s = false := by
  induction s with
  | nil => rfl
  | cons c s ih => simpa [rmatch, deriv] using ih

theorem eps_rmatch (s : List Char) : rmatch eps s = true ↔ s = [] := by
  cases s with
  | nil => simp [rmatch, nullable]
  | cons c s => simp [rmatch, deriv, fail_rmatch]

theorem cls_rmatch (p : Char → Bool) (s : List Char) :
    rmatch (cls p) s = true ↔ ∃ c, s = [c] ∧ p c = true := by
  cases s with
  | nil => simp [rmatch, nullable]
  | cons c s =>
    cases s with
    | nil =>
      by_cases h : p c = true
      · simp [rmatch, deriv, h, nullable]
      · simp only [Bool.not_eq_true] at h
        simp [rmatch, deriv, h, nullable]
    | cons d t =>
      constructor
      · intro hm
        exfalso
        by_cases h : p c = true
        · simp [rmatch, deriv, h, fail_rmatch] at hm
        · simp only [Bool.not_eq_true] at h
          simp [rmatch, deriv, h, fail_rmatch] at hm
      · rintro ⟨e, he, _⟩
        simp at he

theorem alt_rmatch (a b : RE) (s : List Char) :
    rmatch (alt a b) s = (rmatch a s || rmatch b s) := by
  induction s generalizing a b with
  | nil => rfl
  | cons c s ih => simpa [rmatch, deriv] using ih (deriv a c) (deriv b c)

theorem cat_rmatch (a b : RE) (s : List Char) :
    rmatch (cat a b) s = true ↔
      ∃ t u, s = t ++ u ∧ rmatch a t = true ∧ rmatch b u = true := by
  induction s generalizing a b with
  | nil =>
    simp only [rmatch, nullable, Bool.and_eq_true]
    constructor
    · rintro ⟨ha, hb⟩
      exact ⟨[], [], rfl, ha, hb⟩
    · rintro ⟨t, u, htu, ha, hb⟩
      rcases List.append_eq_nil.mp htu.symm with ⟨ht, hu⟩
      subst ht; subst hu
      exact ⟨ha, hb⟩
  | cons c s ih =>
    rw [rmatch_cons]
    simp only [deriv]
    by_cases hn : nullable a = true
    · rw [if_pos hn, alt_rmatch, Bool.or_eq_true, ih]
      constructor
      · rintro (⟨t, u, htu, ha, hb⟩ | hb)
        · exact ⟨c :: t, u, by simp [htu], ha, hb⟩
        · exact ⟨[], c :: s, rfl, hn, hb⟩
      · rintro ⟨t, u, htu, ha, hb⟩
        cases t with
        | nil =>
          right
          have hu : u = c :: s := by simpa using htu.symm
          subst hu
          rw [rmatch_cons] at hb
          exact hb
        | cons d t =>
          left
          rcases List.cons_eq_cons.mp htu with ⟨hd, hts⟩
          subst hd
          exact ⟨t, u, hts, ha, hb⟩
    · rw [if_neg hn, ih]
      constructor
      · rintro ⟨t, u, htu, ha, hb⟩
        exact ⟨c :: t, u, by simp [htu], ha, hb⟩
      · rintro ⟨t, u, htu, ha, hb⟩
        cases t with
        | nil =>
          exfalso
          rw [rmatch_nil] at ha
          exact hn ha
        | cons d t =>
          rcases List.cons_eq_cons.mp htu with ⟨hd, hts⟩
          subst hd
          exact ⟨t, u, hts, ha, hb⟩

theorem star_cls_rmatch (p : Char → Bool) (s : List Char) :
    rmatch (star (cls p)) s = s.all p := by
  induction s with
  | nil => rfl
  | cons c s ih =>
    rw [rmatch_cons]
    simp only [deriv]
    by_cases h : p c = true
    · rw [if_pos h]
      have hcat : rmatch (cat eps (star (cls p))) s = true ↔
          rmatch (star (cls p)) s = true := by
        rw [cat_rmatch]
        constructor
        · rintro ⟨t, u, htu, ht, hu⟩
          rw [eps_rmatch] at ht
          subst ht
          have hu2 : u = s := by simpa using htu.symm
          subst hu2
          exact hu
        · intro hm
          exact ⟨[], s, rfl, rfl, hm⟩
      have : rmatch (cat eps (star (cls p))) s = rmatch (star (cls p)) s := by
        by_cases hs : rmatch (star (cls p)) s = true
        · rw [hs, hcat.mpr hs]
        · simp only [Bool.not_eq_true] at hs
          rw [hs]
          by_contra hne
          have := hcat.mp (by
            cases hx : rmatch (cat eps (star (cls p))) s
            · exact absurd hx hne
            · rfl)
          rw [this] at hs
          cases hs
      rw [this, ih, List.all_cons, h, Bool.true_and]
    · simp only [Bool.not_eq_true] at h
      rw [if_neg (by simp [h])]
      have : rmatch (cat fail (star (cls p))) s = false := by
        cases hx : rmatch (cat fail (star (cls p))) s
        · rfl
        · exfalso
          rcases (cat_rmatch _ _ _).mp hx with ⟨t, u, _, ht, _⟩
          rw [fail_rmatch] at ht
          cases ht
      rw [this, List.all_cons, h, Bool.false_and]

theorem void_sound (r : RE) (hr : void r = true) (s : List Char) :
    rmatch r s = false := by
  induction r generalizing s with
  | fail => exact fail_rmatch s
  | eps => simp [void] at hr
  | cls p => simp [void] at hr
  | alt a b iha ihb =>
    simp only [void, Bool.and_eq_true] at hr
    rw [alt_rmatch, iha hr.1, ihb hr.2]
    rfl
  | cat a b iha ihb =>
    simp only [void, Bool.or_eq_true] at hr
    cases hx : rmatch (cat a b) s
    · rfl
    · exfalso
      rcases (cat_rmatch _ _ _).mp hx with ⟨t, u, _, ht, hu⟩
      rcases hr with h | h
      · rw [iha h] at ht; cases ht
      · rw [ihb h] at hu; cases hu
  | star a ih => simp [void] at hr

theorem pmatch_iff (r : RE) (s : List Char) :
    pmatch r s = true ↔ ∃ t u, s = t ++ u ∧ rmatch r t = true := by
  induction s generalizing r with
  | nil =>
    simp only [pmatch]
    constructor
    · intro h
      exact ⟨[], [], rfl, h⟩
    · rintro ⟨t, u, htu, ht⟩
      rcases List.append_eq_nil.mp htu.symm with ⟨h1, _⟩
      subst h1
      exact ht
  | cons c s ih =>
    simp only [pmatch, Bool.or_eq_true]
    rw [ih]
    constructor
    · rintro (hn | ⟨t, u, htu, ht⟩)
      · exact ⟨[], c :: s, rfl, hn⟩
      · exact ⟨c :: t, u, by simp [htu], ht⟩
    · rintro ⟨t, u, htu, ht⟩
      cases t with
      | nil =>
        left
        exact ht
      | cons d t =>
        right
        rcases List.cons_eq_cons.mp htu with ⟨hd, hts⟩
        subst hd
        exact ⟨t, u, hts, ht⟩

theorem pmatch_of_void (r : RE) (hr : void r = true) (s : List Char) :
    pmatch r s = false := by
  cases hx : pmatch r s
  · rfl
  · exfalso
    rcases (pmatch_iff _ _).mp hx with ⟨t, _, _, ht⟩
    rw [void_sound r hr t] at ht
    cases ht

end RE

theorem dimOpacity_eq : dimOpacity = 2/5 := by
  unfold dimOpacity
  rw [Rat.mk'_eq_divInt, Rat.divInt_eq_div]
  norm_num

/-! ### Helper lemmas about the classifier -/

theorem classify_of_greeting {s : List Char}
    (h : greetingHit (lowerStr (trimStr s)) = true) :
    classifyQuery s = .greeting := by
  simp [classifyQuery, h]

theorem classify_of_crud {s : List Char}
    (hg : greetingHit (lowerStr (trimStr s)) = false)
    (hc : crudHit (lowerStr (trimStr s)) = true) :
    classifyQuery s = .crud := by
  simp [classifyQuery, hg, hc]

theorem classify_of_keyword {s : List Char}
    (hg : greetingHit (lowerStr (trimStr s)) = false)
    (hc : crudHit (lowerStr (trimStr s)) = false)
    (hk : keywordHit (lowerStr (trimStr s)) = true) :
    classifyQuery s = .keyword := by
  simp [classifyQuery, hg, hc, hk]

theorem classify_of_no_anchor_hit {s : List Char}
    (hg : greetingHit (lowerStr (trimStr s)) = false)
    (hc : crudHit (lowerStr (trimStr s)) = false)
    (hk : keywordHit (lowerStr (trimStr s)) = false) :
    classifyQuery s = .reasoning := by
  simp [classifyQuery, hg, hc, hk]

/-! ### Claims C1 and C2 -/

/-- C1: classifyQuery tests the pattern families in the fixed priority
order greeting, crud, keyword, reasoning; the first family with a matching
predicate decides the category, family priority dominating even when a
predicate of a later family also matches (demonstrated on "how are you",
which hits both the greeting and the reasoning family); when no family
matches, the result is the default reasoning (the last two branches of the
source return reasoning either way). -/
theorem claim1_classifier_priority_order :
    (∀ s, greetingHit (lowerStr (trimStr s)) = true →
      classifyQuery s = .greeting) ∧
    (∀ s, greetingHit (lowerStr (trimStr s)) = false →
      crudHit (lowerStr (trimStr s)) = true → classifyQuery s = .crud) ∧
    (∀ s, greetingHit (lowerStr (trimStr s)) = false →
      crudHit (lowerStr (trimStr s)) = false →
      keywordHit (lowerStr (trimStr s)) = true →
      classifyQuery s = .keyword) ∧
    (∀ s, greetingHit (lowerStr (trimStr s)) = false →
      crudHit (lowerStr (trimStr s)) = false →
      keywordHit (lowerStr (trimStr s)) = false →
      classifyQuery s = .reasoning) ∧
    (greetingHit (lowerStr (trimStr ("how are you".toList))) = true ∧
      reasoningHit (lowerStr (trimStr ("how are you".toList))) = true ∧
      classifyQuery ("how are you".toList) = .greeting) := by
  refine ⟨fun s h => classify_of_greeting h,
    fun s hg hc => classify_of_crud hg hc,
    fun s hg hc hk => classify_of_keyword hg hc hk,
    fun s hg hc hk => classify_of_no_anchor_hit hg hc hk,
    rfl, rfl, rfl⟩

/-- Witness for C1 at concrete inputs, one per family plus the default. -/
theorem claim1_classifier_priority_order_witness :
    (greetingHit (lowerStr (trimStr ("hi".toList))) = true ∧
      classifyQuery ("hi".toList) = .greeting) ∧
    (greetingHit (lowerStr (trimStr ("mark incident resolved".toList))) = false ∧
      crudHit (lowerStr (trimStr ("mark incident resolved".toList))) = true ∧
      classifyQuery ("mark incident resolved".toList) = .crud) ∧
    (keywordHit (lowerStr (trimStr ("show all incidents".toList))) = true ∧
      classifyQuery ("show all incidents".toList) = .keyword) ∧
    classifyQuery ("the server is down".toList) = .reasoning :=
  ⟨⟨rfl, claim1_classifier_priority_order.1 _ rfl⟩,
    ⟨rfl, rfl, claim1_classifier_priority_order.2.1 _ rfl rfl⟩,
    ⟨rfl, claim1_classifier_priority_order.2.2.1 _ rfl rfl rfl⟩,
    claim1_classifier_priority_order.2.2.2.1 _ rfl rfl rfl⟩

/-- Counterexample to C2: neither "list critical incidents" nor
"show me all critical incidents" is classified keyword (no keyword regex
matches: the severity-first pattern is anchored at the start of the string
and the list-verb pattern requires the verb to be followed by an optional
"all" and an incident noun, not by "critical" or "me"); both fall through
to the default reasoning. -/
theorem claim2_keyword_examples_counterexample :
    classifyQuery ("list critical incidents".toList) = .reasoning ∧
    classifyQuery ("show me all critical incidents".toList) = .reasoning ∧
    FlowType.reasoning ≠ FlowType.keyword :=
  ⟨classify_of_no_anchor_hit rfl rfl rfl,
    classify_of_no_anchor_hit rfl rfl rfl, by decide⟩

/-- C2 amended: "show all incidents" and "how many issues" are classified
keyword and "mark incident resolved" is classified crud (write-operation
priority), but "list critical incidents" and "show me all critical
incidents" are classified reasoning, not keyword. -/
theorem claim2_keyword_examples_amended :
    classifyQuery ("show all incidents".toList) = .keyword ∧
    classifyQuery ("how many issues".toList) = .keyword ∧
    classifyQuery ("mark incident resolved".toList) = .crud ∧
    classifyQuery ("list critical incidents".toList) = .reasoning ∧
    classifyQuery ("show me all critical incidents".toList) = .reasoning :=
  ⟨rfl, rfl, rfl, classify_of_no_anchor_hit rfl rfl rfl,
    classify_of_no_anchor_hit rfl rfl rfl⟩

/-! ### Claims C4, C8 and C3 (the animator) -/

/-- C4: a single uninterrupted animateFlow(category) run, started from the
five-node graph in any combination of statuses, ends with exactly the
nodes of the active-node set of the category (per FLOW_PATHS) completed and
every other node skipped; no node is left idle or active. -/
theorem claim4_animator_final_statuses (type : FlowType)
    (s1 s2 s3 s4 s5 : NodeStatus) (es : List FlowEdge) :
    (animateFlow type
      ⟨[⟨"ui", s1⟩, ⟨"fastapi", s2⟩, ⟨"pathway", s3⟩, ⟨"llm", s4⟩,
        ⟨"supabase", s5⟩], es⟩).nodes =
      createNodes.map fun n =>
        { n with status :=
            if (FLOW_PATHS type).activeNodes.contains n.id then .completed
            else .skipped } := by
  cases type <;>
    simp [animateFlow, animGo, activateNode, completeNode, sequences,
      FLOW_PATHS, createNodes]

/-- C8: after each animation step that carries an edge, the accumulator
holds exactly the edges of the steps processed so far (the current edge
last), and every edge of the graph is recolored: activated edges get the
category highlight (the fastapi-supabase write edge is amber for crud and
blue for keyword, every other activated edge is green) at full opacity,
non-activated edges are dimmed to the low-opacity gray. -/
theorem claim8_edge_recoloring (type : FlowType) (k : Nat) (step : AnimStep)
    (e : String) (hstep : (sequences type).get? k = some step)
    (hedge : step.edge = some e) :
    dimOpacity = 2/5 ∧
    (animPrefix type (k + 1)).2 =
      ((sequences type).take (k + 1)).filterMap AnimStep.edge ∧
    (animPrefix type (k + 1)).2.getLast? = some e ∧
    ∀ ed ∈ (animPrefix type (k + 1)).1.edges,
      ((animPrefix type (k + 1)).2.contains ed.id = true →
        ed.stroke =
          (if ed.id = "fastapi-supabase" ∧ type = .crud then "#f59e0b"
            else if ed.id = "fastapi-supabase" ∧ type = .keyword then "#3b82f6"
            else "#22c55e") ∧
        ed.opacity = some 1) ∧
      ((animPrefix type (k + 1)).2.contains ed.id = false →
        ed.stroke = "rgba(75, 85, 99, 0.3)" ∧ ed.opacity = some dimOpacity) := by
  refine ⟨dimOpacity_eq, ?_⟩
  have hk : k < (sequences type).length := by
    cases hx : (sequences type).get? k with
    | none => rw [hx] at hstep; cases hstep
    | some a => exact List.get?_eq_some.mp hx |>.1
  cases type with
  | greeting =>
    simp only [sequences, List.length_cons, List.length_nil] at hk
    interval_cases k
    · simp only [sequences, List.get?, Option.some.injEq] at hstep
      subst hstep
      exact Option.noConfusion (show (none : Option String) = some e from hedge)
  | keyword =>
    simp only [sequences, List.length_cons, List.length_nil] at hk
    interval_cases k
    · simp only [sequences, List.get?, Option.some.injEq] at hstep
      subst hstep
      exact Option.noConfusion (show (none : Option String) = some e from hedge)
    · simp only [sequences, List.get?, Option.some.injEq] at hstep
      subst hstep
      injection hedge with he
      subst he
      decide
    · simp only [sequences, List.get?, Option.some.injEq] at hstep
      subst hstep
      injection hedge with he
      subst he
      decide
  | reasoning =>
    simp only [sequences, List.length_cons, List.length_nil] at hk
    interval_cases k
    · simp only [sequences, List.get?, Option.some.injEq] at hstep
      subst hstep
      exact Option.noConfusion (show (none : Option String) = some e from hedge)
    · simp only [sequences, List.get?, Option.some.injEq] at hstep
      subst hstep
      injection hedge with he
      subst he
      decide
    · simp only [sequences, List.get?, Option.some.injEq] at hstep
      subst hstep
      injection hedge with he
      subst he
      decide
    · simp only [sequences, List.get?, Option.some.injEq] at hstep
      subst hstep
      injection hedge with he
      subst he
      decide
    · simp only [sequences, List.get?, Option.some.injEq] at hstep
      subst hstep
      injection hedge with he
      subst he
      decide
  | crud =>
    simp only [sequences, List.length_cons, List.length_nil] at hk
    interval_cases k
    · simp only [sequences, List.get?, Option.some.injEq] at hstep
      subst hstep
      exact Option.noConfusion (show (none : Option String) = some e from hedge)
    · simp only [sequences, List.get?, Option.some.injEq] at hstep
      subst hstep
      injection hedge with he
      subst he
      decide
    · simp only [sequences, List.get?, Option.some.injEq] at hstep
      subst hstep
      injection hedge with he
      subst he
      decide

/-- Witness for C8: the third crud step carries the fastapi-supabase edge;
after it the accumulator is [ui-fastapi, fastapi-supabase] and the write
edge is amber. -/
theorem claim8_edge_recoloring_witness :
    (sequences .crud).get? 2 = some ⟨"supabase", some "fastapi-supabase"⟩ ∧
    dimOpacity = 2/5 ∧
    (animPrefix .crud 3).2 =
      ((sequences .crud).take 3).filterMap AnimStep.edge ∧
    (animPrefix .crud 3).2.getLast? = some "fastapi-supabase" ∧
    ∀ ed ∈ (animPrefix .crud 3).1.edges,
      ((animPrefix .crud 3).2.contains ed.id = true →
        ed.stroke =
          (if ed.id = "fastapi-supabase" ∧ FlowType.crud = .crud then "#f59e0b"
            else if ed.id = "fastapi-supabase" ∧ FlowType.crud = .keyword then
              "#3b82f6"
            else "#22c55e") ∧
        ed.opacity = some 1) ∧
      ((animPrefix .crud 3).2.contains ed.id = false →
        ed.stroke = "rgba(75, 85, 99, 0.3)" ∧ ed.opacity = some dimOpacity) :=
  ⟨rfl, claim8_edge_recoloring .crud 2 ⟨"supabase", some "fastapi-supabase"⟩
    "fastapi-supabase" rfl rfl⟩

/-- C3 is violated by the code: handleSubmit never invokes resetFlow (dead
code), so a new submission starts its animation on the graph state left by
the previous run.  Concretely: after a completed reasoning run, submitting
the greeting "hello" starts animating with node llm still completed (not
idle) and, because the greeting sequence activates no edge, finishes with
the green edge styling of the previous run intact instead of the idle styles. -/
theorem claim3_no_reset_between_runs :
    (animateFlow .reasoning ⟨createNodes, createEdges⟩).nodes ≠
      (resetFlow initUI).nodes ∧
    (handleSubmit
        { initUI with
          question := "hello"
          nodes := (animateFlow .reasoning ⟨createNodes, createEdges⟩).nodes
          edges := (animateFlow .reasoning ⟨createNodes, createEdges⟩).edges }
        ⟨.ok "x", 0, 700, 900⟩).preAnimNodes =
      (animateFlow .reasoning ⟨createNodes, createEdges⟩).nodes ∧
    (∃ n ∈ (handleSubmit
        { initUI with
          question := "hello"
          nodes := (animateFlow .reasoning ⟨createNodes, createEdges⟩).nodes
          edges := (animateFlow .reasoning ⟨createNodes, createEdges⟩).edges }
        ⟨.ok "x", 0, 700, 900⟩).preAnimNodes,
      n.id = "llm" ∧ n.status = .completed) ∧
    (∃ ed ∈ (handleSubmit
        { initUI with
          question := "hello"
          nodes := (animateFlow .reasoning ⟨createNodes, createEdges⟩).nodes
          edges := (animateFlow .reasoning ⟨createNodes, createEdges⟩).edges }
        ⟨.ok "x", 0, 700, 900⟩).state.edges,
      ed.id = "fastapi-pathway" ∧ ed.stroke = "#22c55e" ∧
        ed.stroke ≠ "#4b5563") := by
  refine ⟨by decide, rfl, ?_, ?_⟩
  · exact ⟨⟨"llm", .completed⟩, by decide, rfl, rfl⟩
  · exact ⟨⟨"fastapi-pathway", "fastapi", "pathway", false, "#22c55e", 3,
      none, some 1, "#22c55e", some 1⟩, by decide, rfl, rfl, by decide⟩

/-! ### Claims C5, C6, C7 (the orchestrator) -/

/-- Counterexample to C5: when the backend call rejects, the catch branch
sets the failure response but never calls setLatency, so the latency
(cleared to null at submission start) is not recorded. -/
theorem claim5_latency_on_failure_counterexample :
    (handleSubmit { initUI with question := "why did the server crash" }
      ⟨.error (), 0, 700, 900⟩).state.response = failureResponse ∧
    (handleSubmit { initUI with question := "why did the server crash" }
      ⟨.error (), 0, 700, 900⟩).state.latency = none :=
  ⟨rfl, rfl⟩

/-- C5 amended: the latency now − start is recorded on every successful
completion (greeting branch and backend success), but on backend failure
it is not recorded — it stays cleared — although the loading indicator is
still cleared. -/
theorem claim5_latency_recorded_amended (st : UIState) (env : SubmitEnv)
    (msg : String) (hq : trimStr st.question.toList ≠ [])
    (hl : st.isLoading = false) :
    (classifyQuery st.question.toList = .greeting →
      (handleSubmit st env).state.latency = some env.greetElapsed) ∧
    (classifyQuery st.question.toList ≠ .greeting → env.net = .ok msg →
      (handleSubmit st env).state.latency = some env.fetchElapsed) ∧
    (classifyQuery st.question.toList ≠ .greeting → env.net = .error () →
      (handleSubmit st env).state.latency = none ∧
        (handleSubmit st env).state.isLoading = false) := by
  have hq2 : trimStr st.question.data ≠ [] := hq
  refine ⟨fun hg => ?_, fun hg hn => ?_, fun hg hn => ?_⟩
  · have hg2 : classifyQuery st.question.data = .greeting := hg
    simp [handleSubmit, hq2, hl, hg2]
  · have hg2 : ¬ classifyQuery st.question.data = .greeting := hg
    simp [handleSubmit, hq2, hl, hg2, hn, apply_ite]
  · have hg2 : ¬ classifyQuery st.question.data = .greeting := hg
    simp [handleSubmit, hq2, hl, hg2, hn]

/-- Witness for C5 at concrete inputs: the greeting "hello" records the
elapsed 650ms; the failing "why did the server crash" records nothing. -/
theorem claim5_latency_recorded_amended_witness :
    trimStr ("hello".toList) ≠ [] ∧
    classifyQuery ("hello".toList) = .greeting ∧
    (handleSubmit { initUI with question := "hello" }
      ⟨.ok "m", 0, 650, 900⟩).state.latency = some 650 ∧
    classifyQuery ("why did the server crash".toList) ≠ .greeting ∧
    (handleSubmit { initUI with question := "why did the server crash" }
        ⟨.error (), 0, 650, 900⟩).state.latency = none ∧
    (handleSubmit { initUI with question := "why did the server crash" }
        ⟨.error (), 0, 650, 900⟩).state.isLoading = false :=
  ⟨by decide, rfl,
    (claim5_latency_recorded_amended { initUI with question := "hello" }
      ⟨.ok "m", 0, 650, 900⟩ "m" (by decide) rfl).1 rfl,
    by decide,
    (claim5_latency_recorded_amended
      { initUI with question := "why did the server crash" }
      ⟨.error (), 0, 650, 900⟩ "m" (by decide) rfl).2.2 (by decide) rfl⟩

/-- C6: when the backend call rejects, handleSubmit (a total function in
this model: the rejection is consumed by the catch branch and nothing
escapes) sets the response to the fixed failure string and the finally
branch clears the loading flag, so the submit control (disabled when
loading or when the trimmed question is empty) re-enables. -/
theorem claim6_network_failure_handling (st : UIState) (env : SubmitEnv)
    (hq : trimStr st.question.toList ≠ []) (hl : st.isLoading = false)
    (hg : classifyQuery st.question.toList ≠ .greeting)
    (hn : env.net = .error ()) :
    (handleSubmit st env).state.response = failureResponse ∧
    failureResponse =
      "Error: Failed to get response. Make sure the backend is running." ∧
    (handleSubmit st env).state.isLoading = false ∧
    (handleSubmit st env).state.question = st.question ∧
    submitDisabled (handleSubmit st env).state = false := by
  have hq2 : trimStr st.question.data ≠ [] := hq
  have hg2 : ¬ classifyQuery st.question.data = .greeting := hg
  refine ⟨?_, rfl, ?_, ?_, ?_⟩ <;>
    simp [handleSubmit, submitDisabled, hq2, hq, hl, hg2, hn, List.isEmpty_iff]

/-- Witness for C6: a failing backend call for "show all incidents". -/
theorem claim6_network_failure_handling_witness :
    trimStr ("show all incidents".toList) ≠ [] ∧
    classifyQuery ("show all incidents".toList) ≠ .greeting ∧
    (handleSubmit { initUI with question := "show all incidents" }
      ⟨.error (), 0, 650, 900⟩).state.response = failureResponse ∧
    failureResponse =
      "Error: Failed to get response. Make sure the backend is running." ∧
    (handleSubmit { initUI with question := "show all incidents" }
      ⟨.error (), 0, 650, 900⟩).state.isLoading = false ∧
    (handleSubmit { initUI with question := "show all incidents" }
        ⟨.error (), 0, 650, 900⟩).state.question = "show all incidents" ∧
    submitDisabled (handleSubmit { initUI with question := "show all incidents" }
      ⟨.error (), 0, 650, 900⟩).state = false :=
  ⟨by decide, by decide,
    claim6_network_failure_handling
      { initUI with question := "show all incidents" }
      ⟨.error (), 0, 650, 900⟩ (by decide) rfl (by decide) rfl⟩

/-- C7: for a greeting-classified input no network call is made and after
the 600ms artificial delay (so the recorded elapsed time is at least 600)
the response is one of the exactly three canned greeting strings; the
selected index floor(rand·3) partitions the Math.random range [0,1) into
three equal-length intervals, one per canned string (uniform choice). -/
theorem claim7_greeting_canned_response (st : UIState) (env : SubmitEnv)
    (hq : trimStr st.question.toList ≠ []) (hl : st.isLoading = false)
    (hg : classifyQuery st.question.toList = .greeting)
    (h0 : 0 ≤ env.rand) (h1 : env.rand < 1)
    (h600 : 600 ≤ env.greetElapsed) :
    (handleSubmit st env).networkCalled = false ∧
    GREETING_RESPONSES.length = 3 ∧
    (handleSubmit st env).state.response ∈ GREETING_RESPONSES ∧
    (handleSubmit st env).state.latency = some env.greetElapsed ∧
    (∀ t, (handleSubmit st env).state.latency = some t → 600 ≤ t) ∧
    (∀ i : ℕ, i < 3 →
      ((⌊env.rand * (GREETING_RESPONSES.length : ℚ)⌋.toNat = i) ↔
        ((i : ℚ)/3 ≤ env.rand ∧ env.rand < ((i : ℚ)+1)/3))) := by
  have hq2 : trimStr st.question.data ≠ [] := hq
  have hg2 : classifyQuery st.question.data = .greeting := hg
  have hlenQ : (GREETING_RESPONSES.length : ℚ) = 3 := by
    norm_num [GREETING_RESPONSES]
  have hflo : (0 : ℤ) ≤ ⌊env.rand * (GREETING_RESPONSES.length : ℚ)⌋ := by
    apply Int.floor_nonneg.mpr
    have h3 : (0 : ℚ) ≤ (GREETING_RESPONSES.length : ℚ) := by positivity
    exact mul_nonneg h0 h3
  have hfhi : ⌊env.rand * (GREETING_RESPONSES.length : ℚ)⌋ < 3 := by
    rw [hlenQ]
    apply Int.floor_lt.mpr
    push_cast
    nlinarith
  have hidx : ⌊env.rand * (GREETING_RESPONSES.length : ℚ)⌋.toNat <
      GREETING_RESPONSES.length := by
    have h3 : GREETING_RESPONSES.length = 3 := rfl
    omega
  refine ⟨?_, rfl, ?_, ?_, ?_, ?_⟩
  · simp [handleSubmit, hq2, hl, hg2]
  · have hresp : (handleSubmit st env).state.response =
        GREETING_RESPONSES.getD
          (⌊env.rand * (GREETING_RESPONSES.length : ℚ)⌋.toNat) "" := by
      simp [handleSubmit, hq2, hl, hg2, List.getD]
    rw [hresp, List.getD_eq_getElem _ _ hidx]
    exact List.getElem_mem _
  · simp [handleSubmit, hq2, hl, hg2]
  · intro t ht
    have hlat : (handleSubmit st env).state.latency = some env.greetElapsed := by
      simp [handleSubmit, hq2, hl, hg2]
    rw [hlat] at ht
    cases ht
    exact h600
  · intro i hi
    rw [hlenQ]
    have key : ⌊env.rand * (3 : ℚ)⌋ = (i : ℤ) ↔
        ((i : ℚ)/3 ≤ env.rand ∧ env.rand < ((i : ℚ)+1)/3) := by
      rw [Int.floor_eq_iff]
      push_cast
      constructor
      · rintro ⟨hlo, hhi⟩
        constructor
        · rw [div_le_iff₀ (by norm_num : (0:ℚ) < 3)]
          linarith
        · rw [lt_div_iff₀ (by norm_num : (0:ℚ) < 3)]
          linarith
      · rintro ⟨hlo, hhi⟩
        rw [div_le_iff₀ (by norm_num : (0:ℚ) < 3)] at hlo
        rw [lt_div_iff₀ (by norm_num : (0:ℚ) < 3)] at hhi
        exact ⟨by linarith, by linarith⟩
    have hflo3 : (0 : ℤ) ≤ ⌊env.rand * (3 : ℚ)⌋ := by rw [← hlenQ]; exact hflo
    constructor
    · intro h
      exact key.mp (by omega)
    · intro h
      have := key.mpr h
      omega

/-- Witness for C7: "hello" with Math.random = 1/2 and 600ms elapsed. -/
theorem claim7_greeting_canned_response_witness :
    trimStr ("hello".toList) ≠ [] ∧
    classifyQuery ("hello".toList) = .greeting ∧
    ((0 : ℚ) ≤ 1/2 ∧ (1/2 : ℚ) < 1 ∧ (600 : ℕ) ≤ 600) ∧
    ((handleSubmit { initUI with question := "hello" }
        ⟨.ok "m", 1/2, 600, 900⟩).networkCalled = false ∧
      GREETING_RESPONSES.length = 3 ∧
      (handleSubmit { initUI with question := "hello" }
        ⟨.ok "m", 1/2, 600, 900⟩).state.response ∈ GREETING_RESPONSES ∧
      (handleSubmit { initUI with question := "hello" }
        ⟨.ok "m", 1/2, 600, 900⟩).state.latency = some 600 ∧
      (∀ t, (handleSubmit { initUI with question := "hello" }
        ⟨.ok "m", 1/2, 600, 900⟩).state.latency = some t → 600 ≤ t) ∧
      (∀ i : ℕ, i < 3 →
        ((⌊(1/2 : ℚ) * (GREETING_RESPONSES.length : ℚ)⌋.toNat = i) ↔
          ((i : ℚ)/3 ≤ (1/2 : ℚ) ∧ (1/2 : ℚ) < ((i : ℚ)+1)/3)))) :=
  ⟨by decide, rfl, ⟨by norm_num, by norm_num, le_refl 600⟩,
    claim7_greeting_canned_response { initUI with question := "hello" }
      ⟨.ok "m", 1/2, 600, 900⟩ (by decide) rfl rfl
      (by norm_num) (by norm_num) (le_refl 600)⟩

/-! ### Lemmas about case folding and trimming, for C9 and C10 -/

theorem ws_lowerChar (c : Char) : isSpaceChar (lowerChar c) = isSpaceChar c := by
  unfold lowerChar
  by_cases h1 : (c == 'A') = true
  · rw [if_pos h1, eq_of_beq h1]
    decide
  · rw [if_neg h1]
    by_cases h2 : (c == 'B') = true
    · rw [if_pos h2, eq_of_beq h2]
      decide
    · rw [if_neg h2]
      by_cases h3 : (c == 'C') = true
      · rw [if_pos h3, eq_of_beq h3]
        decide
      · rw [if_neg h3]
        by_cases h4 : (c == 'D') = true
        · rw [if_pos h4, eq_of_beq h4]
          decide
        · rw [if_neg h4]
          by_cases h5 : (c == 'E') = true
          · rw [if_pos h5, eq_of_beq h5]
            decide
          · rw [if_neg h5]
            by_cases h6 : (c == 'F') = true
            · rw [if_pos h6, eq_of_beq h6]
              decide
            · rw [if_neg h6]
              by_cases h7 : (c == 'G') = true
              · rw [if_pos h7, eq_of_beq h7]
                decide
              · rw [if_neg h7]
                by_cases h8 : (c == 'H') = true
                · rw [if_pos h8, eq_of_beq h8]
                  decide
                · rw [if_neg h8]
                  by_cases h9 : (c == 'I') = true
                  · rw [if_pos h9, eq_of_beq h9]
                    decide
                  · rw [if_neg h9]
                    by_cases h10 : (c == 'J') = true
                    · rw [if_pos h10, eq_of_beq h10]
                      decide
                    · rw [if_neg h10]
                      by_cases h11 : (c == 'K') = true
                      · rw [if_pos h11, eq_of_beq h11]
                        decide
                      · rw [if_neg h11]
                        by_cases h12 : (c == 'L') = true
                        · rw [if_pos h12, eq_of_beq h12]
                          decide
                        · rw [if_neg h12]
                          by_cases h13 : (c == 'M') = true
                          · rw [if_pos h13, eq_of_beq h13]
                            decide
                          · rw [if_neg h13]
                            by_cases h14 : (c == 'N') = true
                            · rw [if_pos h14, eq_of_beq h14]
                              decide
                            · rw [if_neg h14]
                              by_cases h15 : (c == 'O') = true
                              · rw [if_pos h15, eq_of_beq h15]
                                decide
                              · rw [if_neg h15]
                                by_cases h16 : (c == 'P') = true
                                · rw [if_pos h16, eq_of_beq h16]
                                  decide
                                · rw [if_neg h16]
                                  by_cases h17 : (c == 'Q') = true
                                  · rw [if_pos h17, eq_of_beq h17]
                                    decide
                                  · rw [if_neg h17]
                                    by_cases h18 : (c == 'R') = true
                                    · rw [if_pos h18, eq_of_beq h18]
                                      decide
                                    · rw [if_neg h18]
                                      by_cases h19 : (c == 'S') = true
                                      · rw [if_pos h19, eq_of_beq h19]
                                        decide
                                      · rw [if_neg h19]
                                        by_cases h20 : (c == 'T') = true
                                        · rw [if_pos h20, eq_of_beq h20]
                                          decide
                                        · rw [if_neg h20]
                                          by_cases h21 : (c == 'U') = true
                                          · rw [if_pos h21, eq_of_beq h21]
                                            decide
                                          · rw [if_neg h21]
                                            by_cases h22 : (c == 'V') = true
                                            · rw [if_pos h22, eq_of_beq h22]
                                              decide
                                            · rw [if_neg h22]
                                              by_cases h23 : (c == 'W') = true
                                              · rw [if_pos h23, eq_of_beq h23]
                                                decide
                                              · rw [if_neg h23]
                                                by_cases h24 : (c == 'X') = true
                                                · rw [if_pos h24, eq_of_beq h24]
                                                  decide
                                                · rw [if_neg h24]
                                                  by_cases h25 : (c == 'Y') = true
                                                  · rw [if_pos h25, eq_of_beq h25]
                                                    decide
                                                  · rw [if_neg h25]
                                                    by_cases h26 : (c == 'Z') = true
                                                    · rw [if_pos h26, eq_of_beq h26]
                                                      decide
                                                    · rw [if_neg h26]

theorem greetTail_lowerChar (c : Char) : isGreetTail (lowerChar c) = isGreetTail c := by
  unfold lowerChar
  by_cases h1 : (c == 'A') = true
  · rw [if_pos h1, eq_of_beq h1]
    decide
  · rw [if_neg h1]
    by_cases h2 : (c == 'B') = true
    · rw [if_pos h2, eq_of_beq h2]
      decide
    · rw [if_neg h2]
      by_cases h3 : (c == 'C') = true
      · rw [if_pos h3, eq_of_beq h3]
        decide
      · rw [if_neg h3]
        by_cases h4 : (c == 'D') = true
        · rw [if_pos h4, eq_of_beq h4]
          decide
        · rw [if_neg h4]
          by_cases h5 : (c == 'E') = true
          · rw [if_pos h5, eq_of_beq h5]
            decide
          · rw [if_neg h5]
            by_cases h6 : (c == 'F') = true
            · rw [if_pos h6, eq_of_beq h6]
              decide
            · rw [if_neg h6]
              by_cases h7 : (c == 'G') = true
              · rw [if_pos h7, eq_of_beq h7]
                decide
              · rw [if_neg h7]
                by_cases h8 : (c == 'H') = true
                · rw [if_pos h8, eq_of_beq h8]
                  decide
                · rw [if_neg h8]
                  by_cases h9 : (c == 'I') = true
                  · rw [if_pos h9, eq_of_beq h9]
                    decide
                  · rw [if_neg h9]
                    by_cases h10 : (c == 'J') = true
                    · rw [if_pos h10, eq_of_beq h10]
                      decide
                    · rw [if_neg h10]
                      by_cases h11 : (c == 'K') = true
                      · rw [if_pos h11, eq_of_beq h11]
                        decide
                      · rw [if_neg h11]
                        by_cases h12 : (c == 'L') = true
                        · rw [if_pos h12, eq_of_beq h12]
                          decide
                        · rw [if_neg h12]
                          by_cases h13 : (c == 'M') = true
                          · rw [if_pos h13, eq_of_beq h13]
                            decide
                          · rw [if_neg h13]
                            by_cases h14 : (c == 'N') = true
                            · rw [if_pos h14, eq_of_beq h14]
                              decide
                            · rw [if_neg h14]
                              by_cases h15 : (c == 'O') = true
                              · rw [if_pos h15, eq_of_beq h15]
                                decide
                              · rw [if_neg h15]
                                by_cases h16 : (c == 'P') = true
                                · rw [if_pos h16, eq_of_beq h16]
                                  decide
                                · rw [if_neg h16]
                                  by_cases h17 : (c == 'Q') = true
                                  · rw [if_pos h17, eq_of_beq h17]
                                    decide
                                  · rw [if_neg h17]
                                    by_cases h18 : (c == 'R') = true
                                    · rw [if_pos h18, eq_of_beq h18]
                                      decide
                                    · rw [if_neg h18]
                                      by_cases h19 : (c == 'S') = true
                                      · rw [if_pos h19, eq_of_beq h19]
                                        decide
                                      · rw [if_neg h19]
                                        by_cases h20 : (c == 'T') = true
                                        · rw [if_pos h20, eq_of_beq h20]
                                          decide
                                        · rw [if_neg h20]
                                          by_cases h21 : (c == 'U') = true
                                          · rw [if_pos h21, eq_of_beq h21]
                                            decide
                                          · rw [if_neg h21]
                                            by_cases h22 : (c == 'V') = true
                                            · rw [if_pos h22, eq_of_beq h22]
                                              decide
                                            · rw [if_neg h22]
                                              by_cases h23 : (c == 'W') = true
                                              · rw [if_pos h23, eq_of_beq h23]
                                                decide
                                              · rw [if_neg h23]
                                                by_cases h24 : (c == 'X') = true
                                                · rw [if_pos h24, eq_of_beq h24]
                                                  decide
                                                · rw [if_neg h24]
                                                  by_cases h25 : (c == 'Y') = true
                                                  · rw [if_pos h25, eq_of_beq h25]
                                                    decide
                                                  · rw [if_neg h25]
                                                    by_cases h26 : (c == 'Z') = true
                                                    · rw [if_pos h26, eq_of_beq h26]
                                                      decide
                                                    · rw [if_neg h26]

theorem lowerStr_append (a b : List Char) :
    lowerStr (a ++ b) = lowerStr a ++ lowerStr b := List.map_append _ _ _

theorem lowerStr_reverse (l : List Char) :
    lowerStr l.reverse = (lowerStr l).reverse := List.map_reverse _ _

theorem dropWhile_lower (p : Char → Bool) (hp : ∀ c, p (lowerChar c) = p c)
    (l : List Char) : (lowerStr l).dropWhile p = lowerStr (l.dropWhile p) := by
  rw [lowerStr, List.dropWhile_map, show (p ∘ lowerChar) = p from funext hp]
  rfl

theorem trimLeft_lower (l : List Char) :
    trimLeft (lowerStr l) = lowerStr (trimLeft l) :=
  dropWhile_lower isSpaceChar ws_lowerChar l

theorem trimRight_lower (l : List Char) :
    trimRight (lowerStr l) = lowerStr (trimRight l) := by
  unfold trimRight
  rw [← lowerStr_reverse l, dropWhile_lower _ ws_lowerChar,
    lowerStr_reverse (l.reverse.dropWhile isSpaceChar)]

theorem trimStr_lower (l : List Char) :
    trimStr (lowerStr l) = lowerStr (trimStr l) := by
  unfold trimStr
  rw [trimLeft_lower, trimRight_lower]

theorem all_greetTail_lower (w : List Char) :
    (lowerStr w).all isGreetTail = w.all isGreetTail := by
  rw [lowerStr, List.all_map,
    show (isGreetTail ∘ lowerChar) = isGreetTail from funext greetTail_lowerChar]

theorem dropWhile_append_of_ne (p : Char → Bool) (l1 l2 : List Char)
    (h : l1.dropWhile p ≠ []) :
    (l1 ++ l2).dropWhile p = l1.dropWhile p ++ l2 := by
  induction l1 with
  | nil => exact absurd rfl h
  | cons a t ih =>
    by_cases ha : p a = true
    · have ht : t.dropWhile p ≠ [] := by
        rw [List.dropWhile_cons, if_pos ha] at h
        exact h
      rw [List.cons_append, List.dropWhile_cons, if_pos ha,
        List.dropWhile_cons, if_pos ha]
      exact ih ht
    · simp only [Bool.not_eq_true] at ha
      simp [List.dropWhile_cons, ha]

theorem dropWhile_append_of_all (p : Char → Bool) (l1 l2 : List Char)
    (h : l1.all p = true) :
    (l1 ++ l2).dropWhile p = l2.dropWhile p := by
  induction l1 with
  | nil => rfl
  | cons a t ih =>
    rw [List.all_cons, Bool.and_eq_true] at h
    rw [List.cons_append, List.dropWhile_cons, if_pos h.1]
    exact ih h.2

theorem dropWhile_head_not (p : Char → Bool) (l : List Char) (c : Char)
    (t : List Char) (h : l.dropWhile p = c :: t) : p c = false := by
  induction l with
  | nil => cases h
  | cons a s ih =>
    rw [List.dropWhile_cons] at h
    by_cases hpa : p a = true
    · rw [if_pos hpa] at h
      exact ih h
    · simp only [Bool.not_eq_true] at hpa
      rw [if_neg (by simp [hpa])] at h
      rcases List.cons_eq_cons.mp h with ⟨hc, _⟩
      rw [← hc]
      exact hpa

theorem trimRight_prefix (l : List Char) :
    ∃ t, l = trimRight l ++ t ∧ t.all isSpaceChar = true := by
  refine ⟨(l.reverse.takeWhile isSpaceChar).reverse, ?_, ?_⟩
  · conv_lhs => rw [← List.reverse_reverse l,
      ← List.takeWhile_append_dropWhile isSpaceChar l.reverse]
    rw [List.reverse_append]
    rfl
  · rw [List.all_eq_true]
    intro c hc
    rw [List.mem_reverse] at hc
    exact List.mem_takeWhile_imp hc

theorem trimRight_idem (l : List Char) :
    trimRight (trimRight l) = trimRight l := by
  unfold trimRight
  rw [List.reverse_reverse]
  congr 1
  cases h : l.reverse.dropWhile isSpaceChar with
  | nil => rfl
  | cons c t =>
    rw [List.dropWhile_cons,
      if_neg (by simp [dropWhile_head_not _ _ _ _ h])]

theorem trimRight_append (x z : List Char) (hx : trimRight x = x) :
    trimRight (x ++ z) = x ++ trimRight z := by
  unfold trimRight at hx ⊢
  rw [List.reverse_append]
  by_cases hz : z.reverse.dropWhile isSpaceChar = []
  · rw [dropWhile_append_of_all _ _ _ ?all]
    · rw [hx, hz]
      simp
    case all =>
      rw [List.all_eq_true]
      intro c hc
      by_contra hcw
      simp only [Bool.not_eq_true] at hcw
      rcases List.dropWhile_eq_nil_iff.mp hz with hall
      have := hall c hc
      rw [hcw] at this
      cases this
  · rw [dropWhile_append_of_ne _ _ _ hz, List.reverse_append,
      List.reverse_reverse]

theorem trimRight_head (c : Char) (l : List Char)
    (hc : isSpaceChar c = false) : ∃ t, trimRight (c :: l) = c :: t := by
  obtain ⟨t, heq, hall⟩ := trimRight_prefix (c :: l)
  cases h : trimRight (c :: l) with
  | nil =>
    rw [h, List.nil_append] at heq
    have hct : c ∈ t := heq ▸ List.mem_cons_self c l
    have := (List.all_eq_true.mp hall) c hct
    rw [this] at hc
    cases hc
  | cons d t2 =>
    rw [h, List.cons_append] at heq
    rcases List.cons_eq_cons.mp heq with ⟨hd, _⟩
    subst hd
    exact ⟨t2, rfl⟩

/-! ### Closure of the greeting family under trailing [\s!.,?] characters -/

theorem cat_tail_append (a : RE) (p : Char → Bool) (m q : List Char)
    (hm : RE.rmatch (RE.cat a (RE.star (RE.cls p))) m = true)
    (hq : q.all p = true) :
    RE.rmatch (RE.cat a (RE.star (RE.cls p))) (m ++ q) = true := by
  obtain ⟨t, u, htu, ha, hu⟩ := (RE.cat_rmatch _ _ _).mp hm
  refine (RE.cat_rmatch _ _ _).mpr ⟨t, u ++ q, ?_, ha, ?_⟩
  · rw [htu, List.append_assoc]
  · rw [RE.star_cls_rmatch] at hu ⊢
    simp [List.all_append, hu, hq]

theorem greetingHit_append (m q : List Char) (hm : greetingHit m = true)
    (hq : q.all isGreetTail = true) : greetingHit (m ++ q) = true := by
  simp only [greetingHit, GREETING_PATTERNS, List.any_cons, List.any_nil,
    Bool.or_false, Bool.or_eq_true] at hm ⊢
  rcases hm with h|h|h|h|h|h|h|h|h
  · exact Or.inl (cat_tail_append _ _ _ _ h hq)
  · exact Or.inr (Or.inl (cat_tail_append _ _ _ _ h hq))
  · exact Or.inr (Or.inr (Or.inl (cat_tail_append _ _ _ _ h hq)))
  · exact Or.inr (Or.inr (Or.inr (Or.inl (cat_tail_append _ _ _ _ h hq))))
  · exact Or.inr (Or.inr (Or.inr (Or.inr (Or.inl
      (cat_tail_append _ _ _ _ h hq)))))
  · exact Or.inr (Or.inr (Or.inr (Or.inr (Or.inr (Or.inl
      (cat_tail_append _ _ _ _ h hq))))))
  · exact Or.inr (Or.inr (Or.inr (Or.inr (Or.inr (Or.inr (Or.inl
      (cat_tail_append _ _ _ _ h hq)))))))
  · exact Or.inr (Or.inr (Or.inr (Or.inr (Or.inr (Or.inr (Or.inr (Or.inl
      (cat_tail_append _ _ _ _ h hq))))))))
  · exact Or.inr (Or.inr (Or.inr (Or.inr (Or.inr (Or.inr (Or.inr (Or.inr
      (cat_tail_append _ _ _ _ h hq))))))))

/-! ### No anchored family matches a string starting with an unknown cue -/

theorem anyMiss (ps : List RE) (c : Char)
    (hv : ps.all (fun r => RE.void (RE.deriv r c)) = true) (w : List Char) :
    (ps.any fun r => RE.rmatch r (c :: w)) = false := by
  induction ps with
  | nil => rfl
  | cons r rs ih =>
    simp only [List.all_cons, Bool.and_eq_true] at hv
    simp only [List.any_cons, ih hv.2, Bool.or_false]
    rw [RE.rmatch_cons]
    exact RE.void_sound _ hv.1 w

theorem anyMissP (ps : List RE) (c : Char)
    (hv : ps.all (fun r => !RE.nullable r && RE.void (RE.deriv r c)) = true)
    (w : List Char) :
    (ps.any fun r => RE.pmatch r (c :: w)) = false := by
  induction ps with
  | nil => rfl
  | cons r rs ih =>
    simp only [List.all_cons, Bool.and_eq_true] at hv
    simp only [List.any_cons, ih hv.2, Bool.or_false]
    show (RE.nullable r || RE.pmatch (RE.deriv r c) w) = false
    rcases hv.1 with ⟨hn, hvd⟩
    rw [RE.pmatch_of_void _ hvd w]
    have hn2 : RE.nullable r = false := by
      cases hnr : RE.nullable r
      · rfl
      · rw [hnr] at hn
        cases hn
    rw [hn2]
    rfl

/-! ### Claims C9 and C10 -/

/-- C9: every input whose trimmed text matches a greeting pattern is
classified greeting; the classification is unchanged by letter case
(t any case-variant of s) and by appending trailing punctuation from the
class [\s!.,?] in which every greeting pattern ends. -/
theorem claim9_greeting_case_punct_invariance (s t q : List Char)
    (h : greetingHit (lowerStr (trimStr s)) = true)
    (ht : lowerStr t = lowerStr s)
    (hq : q.all isGreetTail = true) :
    classifyQuery s = .greeting ∧
    classifyQuery t = .greeting ∧
    classifyQuery (s ++ q) = .greeting := by
  refine ⟨classify_of_greeting h, ?_, ?_⟩
  · apply classify_of_greeting
    have heq : lowerStr (trimStr t) = lowerStr (trimStr s) :=
      calc lowerStr (trimStr t) = trimStr (lowerStr t) := (trimStr_lower t).symm
        _ = trimStr (lowerStr s) := by rw [ht]
        _ = lowerStr (trimStr s) := trimStr_lower s
    rw [heq]
    exact h
  · have hne : trimStr s ≠ [] := by
      intro h0
      rw [h0] at h
      exact absurd h (by decide)
    have hy : trimLeft s ≠ [] := by
      intro h0
      apply hne
      unfold trimStr
      rw [h0]
      rfl
    obtain ⟨tw, hdec, htw⟩ := trimRight_prefix (trimLeft s)
    have h1 : trimLeft (s ++ q) = trimLeft s ++ q :=
      dropWhile_append_of_ne _ _ _ hy
    have h2 : trimStr (s ++ q) = trimStr s ++ trimRight (tw ++ q) := by
      unfold trimStr
      rw [h1]
      conv_lhs => rw [hdec]
      rw [List.append_assoc]
      exact trimRight_append _ _ (trimRight_idem _)
    have hw : (trimRight (tw ++ q)).all isGreetTail = true := by
      obtain ⟨rest, hwdec, _⟩ := trimRight_prefix (tw ++ q)
      rw [List.all_eq_true]
      intro c hc
      have hmem : c ∈ tw ++ q := by
        rw [hwdec]
        exact List.mem_append_left _ hc
      rcases List.mem_append.mp hmem with hmt | hmq
      · have hws := (List.all_eq_true.mp htw) c hmt
        simp [isGreetTail, hws]
      · exact (List.all_eq_true.mp hq) c hmq
    apply classify_of_greeting
    rw [h2, lowerStr_append]
    apply greetingHit_append _ _ h
    rw [all_greetTail_lower]
    exact hw

/-- Witness for C9 at "hi" (uppercased to "HI", with "!! " appended). -/
theorem claim9_greeting_case_punct_invariance_witness :
    greetingHit (lowerStr (trimStr ("hi".toList))) = true ∧
    lowerStr ("HI".toList) = lowerStr ("hi".toList) ∧
    ("!! ".toList).all isGreetTail = true ∧
    classifyQuery ("hi".toList) = .greeting ∧
    classifyQuery ("HI".toList) = .greeting ∧
    classifyQuery ("hi".toList ++ "!! ".toList) = .greeting :=
  ⟨rfl, rfl, rfl,
    claim9_greeting_case_punct_invariance "hi".toList "HI".toList
      "!! ".toList rfl rfl rfl⟩

/-- C10: the greeting, crud and keyword families are anchored at the start
of the trimmed input, so (i) whenever none of them matches, the result is
reasoning (whether or not a reasoning cue occurs: the last two branches of
classifyQuery coincide), and (ii) prepending the filler word "please "
forces the classification of any input whatsoever to reasoning — none of
the 19 anchored patterns survives the derivative by the letter p —
demonstrated on inputs otherwise classified keyword, greeting and crud. -/
theorem claim10_anchored_prefix_sensitivity :
    (∀ s, greetingHit (lowerStr (trimStr s)) = false →
      crudHit (lowerStr (trimStr s)) = false →
      keywordHit (lowerStr (trimStr s)) = false →
      classifyQuery s = .reasoning) ∧
    (∀ x, classifyQuery ("please ".toList ++ x) = .reasoning) ∧
    (classifyQuery ("show all incidents".toList) = .keyword ∧
      classifyQuery ("please show all incidents".toList) = .reasoning) ∧
    (classifyQuery ("hello".toList) = .greeting ∧
      classifyQuery ("please hello".toList) = .reasoning) ∧
    (classifyQuery ("mark incident resolved".toList) = .crud ∧
      classifyQuery ("please mark incident resolved".toList) = .reasoning) := by
  have please : ∀ x, classifyQuery ("please ".toList ++ x) = .reasoning := by
    intro x
    have h1 : trimLeft ("please ".toList ++ x) = "please ".toList ++ x := by
      show List.dropWhile _ ('p' :: _) = _
      rw [List.dropWhile_cons, if_neg (by decide)]
      rfl
    obtain ⟨t2, ht2⟩ :=
      trimRight_head 'p' ("lease ".toList ++ x) (by decide)
    have h2 : trimStr ("please ".toList ++ x) = 'p' :: t2 := by
      unfold trimStr
      rw [h1]
      exact ht2
    have hg : greetingHit (lowerStr (trimStr ("please ".toList ++ x))) =
        false := by
      rw [h2]
      exact anyMiss GREETING_PATTERNS 'p' (by decide) (lowerStr t2)
    have hc : crudHit (lowerStr (trimStr ("please ".toList ++ x))) =
        false := by
      rw [h2]
      exact anyMissP CRUD_PATTERNS 'p' (by decide) (lowerStr t2)
    have hk : keywordHit (lowerStr (trimStr ("please ".toList ++ x))) =
        false := by
      rw [h2]
      exact anyMissP KEYWORD_PATTERNS 'p' (by decide) (lowerStr t2)
    exact classify_of_no_anchor_hit hg hc hk
  refine ⟨fun s hg hc hk => classify_of_no_anchor_hit hg hc hk, please,
    ⟨rfl, ?_⟩, ⟨rfl, ?_⟩, ⟨rfl, ?_⟩⟩
  · exact please ("show all incidents".toList)
  · exact please ("hello".toList)
  · exact please ("mark incident resolved".toList)

/-- Witness for C10: the no-cue input "the server is down" has no match in
any anchored family and is classified reasoning; "please xyz" is
classified reasoning. -/
theorem claim10_anchored_prefix_sensitivity_witness :
    greetingHit (lowerStr (trimStr ("see you later alligator".toList))) = false ∧
    crudHit (lowerStr (trimStr ("see you later alligator".toList))) = false ∧
    keywordHit (lowerStr (trimStr ("see you later alligator".toList))) = false ∧
    classifyQuery ("see you later alligator".toList) = .reasoning ∧
    classifyQuery ("please ".toList ++ "xyz".toList) = .reasoning :=
  ⟨rfl, rfl, rfl,
    claim10_anchored_prefix_sensitivity.1 ("see you later alligator".toList)
      rfl rfl rfl,
    claim10_anchored_prefix_sensitivity.2.1 ("xyz".toList)⟩

end IncidentFlow
